import Mathlib

/-
  Verification development for the network-inventory repository.

  Frontend definitions are shallow embeddings of the TypeScript sources
  (src/frontend/src/api.ts, src/frontend/src/hooks/useWebSocket.tsx, the
  App component's filteredScanData and the DownloadDropdown's CSV escaping).
  The backend scan coordinator, cooldown policy, result cache and history
  store are not present in the repository sources available here, so they
  are modelled from the specification (spec.md), as marked on each
  definition.
-/

namespace NetworkInventory

/- ===== JavaScript-style string helpers ===== -/

/-- Boolean list-prefix test, mirroring the scanning JS `String.includes`
performs at each start position. -/
def isPrefixList : List Char → List Char → Bool
  | [], _ => true
  | _ :: _, [] => false
  | a :: as, b :: bs => a == b && isPrefixList as bs

/-- `containsSub needle haystack` is JS `haystack.includes(needle)` on the
character lists. -/
def containsSub (needle : List Char) : List Char → Bool
  | [] => isPrefixList needle []
  | c :: rest => isPrefixList needle (c :: rest) || containsSub needle rest

/-- JS `String.prototype.toLowerCase` (ASCII model), written over the
character list so it evaluates by kernel reduction. -/
def lowerStr (s : String) : String := String.mk (s.toList.map Char.toLower)

/-- JS `s.includes(sub)`. -/
def strIncludes (s sub : String) : Bool := containsSub sub.toList s.toList

/- ===== Frontend data model (src/frontend/src/api.ts) ===== -/

/-- `NetworkDevice` from api.ts. -/
structure NetworkDevice where
  hostname : String
  ip : String
  mac : String
  vendor : Option String
deriving DecidableEq

/-- `UniFiClient` from api.ts. -/
structure UniFiClient where
  hostname : String
  ip : String
  mac : String
  network : Option String
  essid : Option String
  rssi : Option Int
  is_wired : Option Bool
deriving DecidableEq

/-- `UniFiNetwork` from api.ts. -/
structure UniFiNetwork where
  name : String
  purpose : String
  vlan : Option Int
  ip_subnet : String
  dhcpd_enabled : Bool
deriving DecidableEq

/-- `UniFiAccessPoint` from api.ts. -/
structure UniFiAccessPoint where
  name : String
  model : String
  ip : String
  mac : String
  num_sta : Nat
  uptime : Nat
deriving DecidableEq

/-- One element of `DockerContainer.Ports`; the JSON field `Type` is named
`portType` here because `Type` is reserved in Lean. -/
structure PortMapping where
  PublicPort : Nat
  PrivatePort : Nat
  portType : String
deriving DecidableEq

/-- `DockerContainer` from api.ts. -/
structure DockerContainer where
  Id : String
  Names : List String
  Image : String
  State : String
  Status : String
  Ports : List PortMapping
  portainer_instance : String
  endpoint_name : String
  endpoint_id : Nat
deriving DecidableEq

/-- The `network` sub-object of `ScanData` from api.ts. -/
structure NetworkSection where
  clients : List UniFiClient
  networks : List UniFiNetwork
  access_points : List UniFiAccessPoint
  scan_results : List NetworkDevice
deriving DecidableEq

/-- `ScanData` from api.ts. -/
structure ScanData where
  network : NetworkSection
  containers : List DockerContainer
  timestamp : String
  next_scan_available : String
  is_cached : Option Bool
  can_refresh : Option Bool
  age_seconds : Option Int
deriving DecidableEq

/- ===== filteredScanData (App component, src/unnamed/part_001) ===== -/

/-- Optional-chaining field match: `field?.toLowerCase().includes(query)`,
`undefined` being falsy. -/
def optIncludes (o : Option String) (query : String) : Bool :=
  match o with
  | none => false
  | some s => strIncludes (lowerStr s) query

/-- The client predicate of `filteredScanData` (hostname/ip/mac/network/essid). -/
def clientMatches (query : String) (c : UniFiClient) : Bool :=
  strIncludes (lowerStr c.hostname) query ||
  strIncludes (lowerStr c.ip) query ||
  strIncludes (lowerStr c.mac) query ||
  optIncludes c.network query ||
  optIncludes c.essid query

/-- The network predicate of `filteredScanData` (name/purpose/ip_subnet). -/
def networkMatches (query : String) (n : UniFiNetwork) : Bool :=
  strIncludes (lowerStr n.name) query ||
  strIncludes (lowerStr n.purpose) query ||
  strIncludes (lowerStr n.ip_subnet) query

/-- The access-point predicate of `filteredScanData` (name/model/ip/mac). -/
def accessPointMatches (query : String) (a : UniFiAccessPoint) : Bool :=
  strIncludes (lowerStr a.name) query ||
  strIncludes (lowerStr a.model) query ||
  strIncludes (lowerStr a.ip) query ||
  strIncludes (lowerStr a.mac) query

/-- The container predicate of `filteredScanData`
(Names/Image/Status/endpoint_name). -/
def containerMatches (query : String) (c : DockerContainer) : Bool :=
  c.Names.any (fun nm => strIncludes (lowerStr nm) query) ||
  strIncludes (lowerStr c.Image) query ||
  strIncludes (lowerStr c.Status) query ||
  strIncludes (lowerStr c.endpoint_name) query

/-- `filteredScanData` from the App component: returns the data unchanged for
the empty (falsy) query, otherwise filters each list with the lowercased
query. -/
def filteredScanData (searchQuery : String) (scanData : ScanData) : ScanData :=
  if searchQuery = "" then scanData
  else
    let query := lowerStr searchQuery
    { scanData with
      network := { scanData.network with
        clients := scanData.network.clients.filter (clientMatches query)
        networks := scanData.network.networks.filter (networkMatches query)
        access_points := scanData.network.access_points.filter (accessPointMatches query) }
      containers := scanData.containers.filter (containerMatches query) }

/- ===== escapeCsvCell (DownloadDropdown, src/unnamed/part_003) ===== -/

/-- A JavaScript cell value as passed to `escapeCsvCell`. -/
inductive CsvValue
  | vnull
  | vundef
  | vstr (s : List Char)
  | vnum (n : Int)
deriving DecidableEq

/-- JS `String(cell)` for the modelled values. -/
def csvValueStr : CsvValue → List Char
  | CsvValue.vnull => "null".toList
  | CsvValue.vundef => "undefined".toList
  | CsvValue.vstr s => s
  | CsvValue.vnum n => (toString n).toList

/-- `str.includes(',') || str.includes('"') || str.includes('\n')`. -/
def hasSpecialChar (str : List Char) : Bool :=
  containsSub [','] str || containsSub ['"'] str || containsSub ['\n'] str

/-- JS `str.replace(/"/g, '""')`. -/
def doubleQuotes : List Char → List Char
  | [] => []
  | c :: cs => if c == '"' then '"' :: '"' :: doubleQuotes cs else c :: doubleQuotes cs

/-- The non-null arm of `escapeCsvCell`: quote-wrap and double inner quotes
when the string form holds a comma, quote or newline, else return it as is. -/
def escCore (str : List Char) : List Char :=
  if hasSpecialChar str then '"' :: (doubleQuotes str ++ ['"']) else str

/-- `escapeCsvCell` from DownloadDropdown: empty string for null/undefined,
otherwise `escCore` of the value's string form. -/
def escapeCsvCell : CsvValue → List Char
  | CsvValue.vnull => []
  | CsvValue.vundef => []
  | CsvValue.vstr s => escCore s
  | CsvValue.vnum n => escCore (csvValueStr (CsvValue.vnum n))

/-- Undo the quote doubling inside a quoted cell body. -/
def undoubleQuotes : List Char → List Char
  | [] => []
  | [c] => [c]
  | c1 :: c2 :: rest =>
    if c1 == '"' && c2 == '"' then '"' :: undoubleQuotes rest
    else c1 :: undoubleQuotes (c2 :: rest)

/-- Standard CSV parse of one output cell: strip a surrounding quote pair and
undouble inner quotes, otherwise return the cell text unchanged. -/
def csvParseCell (l : List Char) : List Char :=
  match l with
  | [] => []
  | c :: rest =>
    if c = '"' ∧ rest.getLast? = some '"' then undoubleQuotes rest.dropLast
    else c :: rest

/- ===== HTTP wrappers (src/frontend/src/api.ts) ===== -/

/-- `HistoryScanSummary.summary` from api.ts. -/
structure ScanSummaryCounts where
  total_clients : Nat
  total_networks : Nat
  total_access_points : Nat
  total_containers : Nat
deriving DecidableEq

/-- `HistoryScanSummary` from api.ts. -/
structure HistoryScanSummary where
  id : Nat
  timestamp : String
  scan_type : String
  summary : ScanSummaryCounts
  created_at : String
deriving DecidableEq

/-- `MetricDataPoint` from api.ts; `metadata` is a string map. -/
structure MetricDataPoint where
  timestamp : String
  value : Int
  metadata : Option (List (String × String))
deriving DecidableEq

/-- An HTTP response to POST /api/scan as `triggerScan` observes it: the `ok`
flag, the status code, the body parsed as `ScanData` (meaningful when `ok`),
and the body's `error` field (read when not `ok`). -/
structure ScanHttpResponse where
  ok : Bool
  status : Nat
  data : ScanData
  errorMsg : Option String
deriving DecidableEq

/-- `triggerScan` from api.ts: return the parsed body when the response is
`ok`, otherwise throw the body's error message or the fallback text. -/
def triggerScan (r : ScanHttpResponse) : Except String ScanData :=
  if r.ok then Except.ok r.data
  else Except.error (r.errorMsg.getD "Failed to trigger scan")

/-- An HTTP response to GET /api/history as `fetchHistoryScans` observes it;
`scans` is the body's optional `scans` field. -/
structure HistoryHttpResponse where
  ok : Bool
  status : Nat
  scans : Option (List HistoryScanSummary)
  errorMsg : Option String
deriving DecidableEq

/-- `fetchHistoryScans` from api.ts: `data.scans || []` on success, error on a
non-ok response. -/
def fetchHistoryScans (r : HistoryHttpResponse) : Except String (List HistoryScanSummary) :=
  if r.ok then Except.ok (r.scans.getD [])
  else Except.error (r.errorMsg.getD "Failed to fetch scan history")

/-- An HTTP response to GET /api/metrics/{name} as `fetchMetricHistory`
observes it; `data` is the body's optional `data` field. -/
structure MetricHttpResponse where
  ok : Bool
  status : Nat
  data : Option (List MetricDataPoint)
  errorMsg : Option String
deriving DecidableEq

/-- `fetchMetricHistory` from api.ts: `data.data || []` on success, error on a
non-ok response. -/
def fetchMetricHistory (r : MetricHttpResponse) : Except String (List MetricDataPoint) :=
  if r.ok then Except.ok (r.data.getD [])
  else Except.error (r.errorMsg.getD "Failed to fetch metric history")

/- ===== Event channel subscriber (src/frontend/src/hooks/useWebSocket.tsx) ===== -/

/-- `ScanCompletedData` from useWebSocket.tsx. -/
structure ScanCompletedData where
  timestamp : String
  total_clients : Nat
  total_containers : Nat
  can_refresh : Bool
deriving DecidableEq

/-- `ScanFailedData` from useWebSocket.tsx. -/
structure ScanFailedData where
  error : String
deriving DecidableEq

/-- The socket messages the hook registers handlers for. -/
inductive SocketMessage
  | connect
  | disconnect
  | scan_started
  | scan_completed (d : ScanCompletedData)
  | scan_failed (d : ScanFailedData)
deriving DecidableEq

/-- Which option callback a delivered message invokes. -/
inductive HandlerCall
  | connectCb
  | disconnectCb
  | scanStartedCb
  | scanCompletedCb (d : ScanCompletedData)
  | scanFailedCb (d : ScanFailedData)
deriving DecidableEq

/-- The hook's message dispatch: each `socket.on` handler only logs and invokes
the matching option callback; the second component lists messages emitted back
to the server (always none — the handlers send no acknowledgment). -/
def dispatchSocketMessage : SocketMessage → HandlerCall × List SocketMessage
  | SocketMessage.connect => (HandlerCall.connectCb, [])
  | SocketMessage.disconnect => (HandlerCall.disconnectCb, [])
  | SocketMessage.scan_started => (HandlerCall.scanStartedCb, [])
  | SocketMessage.scan_completed d => (HandlerCall.scanCompletedCb d, [])
  | SocketMessage.scan_failed d => (HandlerCall.scanFailedCb d, [])

/- ===== Backend scan coordinator, modelled from the spec ===== -/

/-- Modelled from the spec: the backend cooldown policy is not under src/;
`canScan` is true iff no prior scan is recorded or
`now - lastScanAt >= cooldownSeconds` (spec section 4.2). -/
def canScan (lastScanAt : Option Int) (cooldownSeconds now : Int) : Bool :=
  match lastScanAt with
  | none => true
  | some t => decide (cooldownSeconds ≤ now - t)

/-- Modelled from the spec: the backend cooldown policy is not under src/;
`secondsRemaining` is `max(0, cooldownSeconds - (now - lastScanAt))`
(spec section 4.2), taken as 0 when no scan is recorded. -/
def secondsRemaining (lastScanAt : Option Int) (cooldownSeconds now : Int) : Int :=
  match lastScanAt with
  | none => 0
  | some t => max 0 (cooldownSeconds - (now - t))

/-- Modelled from the spec: scan trigger kinds (spec section 4.1). -/
inductive ScanTrigger
  | manual
  | automatic
deriving DecidableEq

/-- Modelled from the spec: per-source error kinds (spec section 7). -/
inductive SourceErrKind
  | timeout
  | authFailure
  | unreachable
deriving DecidableEq

/-- Modelled from the spec: `requestScan` error results (spec section 4.1). -/
inductive ScanError
  | alreadyScanning
  | cooldownActive (secondsRemaining : Int)
deriving DecidableEq

/-- Modelled from the spec: hypervisor-managed VM record (spec section 3,
`virtualMachines`). -/
structure VirtualMachine where
  name : String
  status : String
deriving DecidableEq

/-- Modelled from the spec: the per-source result lists a successful adapter
fetch contributes to the snapshot fields (spec sections 3 and 4.6). -/
structure SourceResult where
  networkDevices : List NetworkDevice
  wirelessClients : List UniFiClient
  wirelessNetworks : List UniFiNetwork
  accessPoints : List UniFiAccessPoint
  containers : List DockerContainer
  virtualMachines : List VirtualMachine
deriving DecidableEq

/-- Modelled from the spec: the immutable `Snapshot` aggregate (spec
section 3). -/
structure Snapshot where
  networkDevices : List NetworkDevice
  wirelessClients : List UniFiClient
  wirelessNetworks : List UniFiNetwork
  accessPoints : List UniFiAccessPoint
  containers : List DockerContainer
  virtualMachines : List VirtualMachine
  takenAt : Int
  partialFailures : List (String × SourceErrKind)
deriving DecidableEq

/-- Modelled from the spec: one durable `ScanHistoryEntry` (spec section 3). -/
structure ScanHistoryEntry where
  id : Nat
  timestamp : Int
  scanType : ScanTrigger
  totalClients : Nat
  totalNetworks : Nat
  totalAccessPoints : Nat
  totalContainers : Nat
  createdAt : Int
deriving DecidableEq

/-- Modelled from the spec: the scan-lifecycle events with the payloads of the
event channel (spec sections 4.5 and 6). -/
inductive ScanEvent
  | scanStarted
  | scanCompleted (timestamp : Int) (totalClients totalContainers : Nat) (canRefresh : Bool)
  | scanFailed (error : String)
deriving DecidableEq

/-- Modelled from the spec: a scan currently executing between fan-out and
fan-in (spec section 5). -/
structure PendingScan where
  trigger : ScanTrigger
  startedAt : Int
deriving DecidableEq

/-- Modelled from the spec: the coordinator-owned state — in-flight scans, the
cooldown bookkeeping, the result cache, the history store and the events
published so far (spec sections 3 and 4). -/
structure CoordState where
  inflight : List PendingScan
  lastScanAt : Option Int
  cooldownSeconds : Int
  cache : Option Snapshot
  history : List ScanHistoryEntry
  events : List ScanEvent
deriving DecidableEq

/-- Modelled from the spec: the process-start state — idle, no scan recorded,
empty cache and history (spec section 9). -/
def initState (cooldown : Int) : CoordState :=
  { inflight := [], lastScanAt := none, cooldownSeconds := cooldown,
    cache := none, history := [], events := [] }

/-- Modelled from the spec: one adapter fetch outcome (spec section 4.6). -/
inductive FetchResult
  | success (r : SourceResult)
  | failure (e : SourceErrKind)
deriving DecidableEq

/-- True on a failed fetch outcome. -/
def isFailure : FetchResult → Bool
  | FetchResult.success _ => false
  | FetchResult.failure _ => true

/-- The successful outcomes of a fan-out, in source registration order. -/
def scanSuccesses (outs : List (String × FetchResult)) : List (String × SourceResult) :=
  outs.filterMap (fun p =>
    match p.2 with
    | FetchResult.success r => some (p.1, r)
    | FetchResult.failure _ => none)

/-- The failed outcomes of a fan-out, in source registration order. -/
def scanFailures (outs : List (String × FetchResult)) : List (String × SourceErrKind) :=
  outs.filterMap (fun p =>
    match p.2 with
    | FetchResult.success _ => none
    | FetchResult.failure e => some (p.1, e))

/-- The identifiers of the adapters that failed, in registration order. -/
def failedIds (outs : List (String × FetchResult)) : List String :=
  (outs.filter (fun p => isFailure p.2)).map Prod.fst

/-- Modelled from the spec: the merge concatenates the per-source result lists
into the corresponding snapshot fields in registration order, with no
deduplication, and records the failed sources (spec section 4.1). -/
def mergeSnapshot (now : Int) (results : List SourceResult)
    (failures : List (String × SourceErrKind)) : Snapshot :=
  { networkDevices := (results.map SourceResult.networkDevices).flatten
    wirelessClients := (results.map SourceResult.wirelessClients).flatten
    wirelessNetworks := (results.map SourceResult.wirelessNetworks).flatten
    accessPoints := (results.map SourceResult.accessPoints).flatten
    containers := (results.map SourceResult.containers).flatten
    virtualMachines := (results.map SourceResult.virtualMachines).flatten
    takenAt := now
    partialFailures := failures }

/-- Modelled from the spec: the history row appended after a completed scan,
with a monotonic id and the summary counts (spec section 3). -/
def mkHistoryEntry (nextId : Nat) (now : Int) (tr : ScanTrigger) (snap : Snapshot) :
    ScanHistoryEntry :=
  { id := nextId, timestamp := now, scanType := tr,
    totalClients := snap.wirelessClients.length,
    totalNetworks := snap.wirelessNetworks.length,
    totalAccessPoints := snap.accessPoints.length,
    totalContainers := snap.containers.length,
    createdAt := now }

/-- Modelled from the spec: the gate of `requestScan` — reject with
`AlreadyScanning` while a scan is in flight, reject with `CooldownActive`
inside the cooldown window, otherwise mark the scan in flight and emit
`ScanStarted` (spec section 4.1). -/
def requestScan (now : Int) (tr : ScanTrigger) (s : CoordState) :
    Except ScanError Unit × CoordState :=
  if s.inflight.isEmpty then
    if canScan s.lastScanAt s.cooldownSeconds now then
      (Except.ok (),
       { s with inflight := [{ trigger := tr, startedAt := now }],
                events := s.events ++ [ScanEvent.scanStarted] })
    else
      (Except.error (ScanError.cooldownActive (secondsRemaining s.lastScanAt s.cooldownSeconds now)), s)
  else
    (Except.error ScanError.alreadyScanning, s)

/-- Modelled from the spec: fan-in completion — return to idle, update
`lastScanAt`; when at least one source succeeded publish the merged snapshot,
append a history row and emit `ScanCompleted`; when all sources failed keep
the cache and history and emit `ScanFailed` (spec sections 4.1 and 7). -/
def completeScan (now : Int) (outs : List (String × FetchResult)) (s : CoordState) :
    CoordState :=
  match s.inflight with
  | [] => s
  | p :: _ =>
    if (scanSuccesses outs).isEmpty then
      { s with inflight := [], lastScanAt := some now,
               events := s.events ++ [ScanEvent.scanFailed "All sources failed"] }
    else
      let snap := mergeSnapshot now ((scanSuccesses outs).map Prod.snd) (scanFailures outs)
      { s with inflight := [], lastScanAt := some now,
               cache := some snap,
               history := s.history ++ [mkHistoryEntry s.history.length now p.trigger snap],
               events := s.events ++
                 [ScanEvent.scanCompleted now snap.wirelessClients.length
                   snap.containers.length (canScan (some now) s.cooldownSeconds now)] }

/-- Modelled from the spec: the coordinator's observable actions — a
`requestScan` call and a fan-in completion (spec sections 4.1 and 5). -/
inductive CoordAct
  | request (now : Int) (tr : ScanTrigger)
  | complete (now : Int) (outs : List (String × FetchResult))

/-- Apply one coordinator action to the state. -/
def stepAct : CoordAct → CoordState → CoordState
  | CoordAct.request now tr, s => (requestScan now tr s).2
  | CoordAct.complete now outs, s => completeScan now outs s

/-- The states the coordinator can reach from process start. -/
inductive Reachable (cooldown : Int) : CoordState → Prop
  | init : Reachable cooldown (initState cooldown)
  | step (a : CoordAct) {s : CoordState} :
      Reachable cooldown s → Reachable cooldown (stepAct a s)

/-- Modelled from the spec: the frontend payload of a channel event — how each
`ScanEvent` reaches the subscriber socket (spec section 6). -/
def eventToMessage : ScanEvent → SocketMessage
  | ScanEvent.scanStarted => SocketMessage.scan_started
  | ScanEvent.scanCompleted ts tc tcon cr =>
      SocketMessage.scan_completed { timestamp := toString ts, total_clients := tc,
                                     total_containers := tcon, can_refresh := cr }
  | ScanEvent.scanFailed e => SocketMessage.scan_failed { error := e }

/- ===== Concrete values used by the witness theorems ===== -/

/-- A `ScanData` value with empty lists, for concrete response bodies. -/
def emptyScanData : ScanData :=
  { network := { clients := [], networks := [], access_points := [], scan_results := [] },
    containers := [], timestamp := "", next_scan_available := "",
    is_cached := none, can_refresh := none, age_seconds := none }

/-- A 200 response to POST /api/scan. -/
def respOk : ScanHttpResponse :=
  { ok := true, status := 200, data := emptyScanData, errorMsg := none }

/-- A 429 cooldown response to POST /api/scan. -/
def resp429 : ScanHttpResponse :=
  { ok := false, status := 429, data := emptyScanData, errorMsg := some "Scan cooldown active" }

/-- A 409 already-scanning response to POST /api/scan. -/
def resp409 : ScanHttpResponse :=
  { ok := false, status := 409, data := emptyScanData, errorMsg := some "Scan already in progress" }

/-- An ok history response whose body lacks the `scans` field. -/
def histRespMissing : HistoryHttpResponse :=
  { ok := true, status := 200, scans := none, errorMsg := none }

/-- A failed history response with no error field. -/
def histRespBad : HistoryHttpResponse :=
  { ok := false, status := 500, scans := none, errorMsg := none }

/-- An ok metric response whose body lacks the `data` field. -/
def metricRespMissing : MetricHttpResponse :=
  { ok := true, status := 200, data := none, errorMsg := none }

/-- A sample wireless client for the filter witness. -/
def sampleClient : UniFiClient :=
  { hostname := "alpha", ip := "192.168.1.2", mac := "11:22",
    network := some "lan", essid := none, rssi := none, is_wired := none }

/-- A sample `ScanData` holding only `sampleClient`. -/
def sampleData : ScanData :=
  { network := { clients := [sampleClient], networks := [], access_points := [],
                 scan_results := [] },
    containers := [], timestamp := "t", next_scan_available := "n",
    is_cached := none, can_refresh := none, age_seconds := none }

/-- The coordinator state right after a scan was granted at time 0. -/
def busyState : CoordState := (requestScan 0 ScanTrigger.manual (initState 300)).2

/-- An idle coordinator state whose last scan was at time 0 with a 300 s
cooldown. -/
def cdState : CoordState :=
  { inflight := [], lastScanAt := some 0, cooldownSeconds := 300,
    cache := none, history := [], events := [] }

/-- A coordinator state with one scan in flight. -/
def wsState : CoordState :=
  { inflight := [{ trigger := ScanTrigger.manual, startedAt := 0 }],
    lastScanAt := some 0, cooldownSeconds := 300,
    cache := none, history := [], events := [] }

/-- A sample client reported by the wireless-controller adapter. -/
def wsClient : UniFiClient :=
  { hostname := "nas", ip := "10.0.0.5", mac := "aa:bb:cc:dd:ee:ff",
    network := none, essid := none, rssi := none, is_wired := some true }

/-- A sample successful source result. -/
def wsResult : SourceResult :=
  { networkDevices := [], wirelessClients := [wsClient], wirelessNetworks := [],
    accessPoints := [], containers := [], virtualMachines := [] }

/-- A fan-out outcome list where one adapter succeeded and one timed out. -/
def wsOuts : List (String × FetchResult) :=
  [("unifi", FetchResult.success wsResult),
   ("portainer", FetchResult.failure SourceErrKind.timeout)]

/- ===== Helper lemmas ===== -/

theorem requestScan_busy (s : CoordState) (now : Int) (tr : ScanTrigger)
    (h : s.inflight ≠ []) :
    requestScan now tr s = (Except.error ScanError.alreadyScanning, s) := by
  have he : s.inflight.isEmpty = false := by simp [List.isEmpty_iff, h]
  simp [requestScan, he]

theorem scanSuccesses_nil_of_all_failed (outs : List (String × FetchResult))
    (h : ∀ p ∈ outs, isFailure p.2 = true) : scanSuccesses outs = [] := by
  induction outs with
  | nil => rfl
  | cons a t ih =>
    have ha := h a (by simp)
    cases hr : a.2 with
    | success r => rw [hr] at ha; simp [isFailure] at ha
    | failure e =>
      simp only [scanSuccesses, List.filterMap_cons, hr]
      exact ih fun p hp => h p (by simp [hp])

theorem scanFailures_map_fst (outs : List (String × FetchResult)) :
    (scanFailures outs).map Prod.fst = failedIds outs := by
  induction outs with
  | nil => rfl
  | cons a t ih =>
    cases hr : a.2 with
    | success r =>
      simp only [scanFailures, failedIds, List.filterMap_cons, List.filter_cons, hr, isFailure]
      simpa [scanFailures, failedIds] using ih
    | failure e =>
      simp only [scanFailures, failedIds, List.filterMap_cons, List.filter_cons, hr, isFailure]
      simpa [scanFailures, failedIds] using ih

theorem mem_scanSuccesses (outs : List (String × FetchResult)) (sid : String)
    (r : SourceResult) :
    (sid, r) ∈ scanSuccesses outs ↔ (sid, FetchResult.success r) ∈ outs := by
  induction outs with
  | nil => simp [scanSuccesses]
  | cons a t ih =>
    obtain ⟨a1, a2⟩ := a
    cases a2 with
    | success r2 =>
      simp only [scanSuccesses, List.filterMap_cons] at *
      simp [Prod.ext_iff, ih]
    | failure e =>
      simp only [scanSuccesses, List.filterMap_cons] at *
      simp [Prod.ext_iff, ih]

theorem undouble_cons_ne (c : Char) (hc : (c == '"') = false) (l : List Char) :
    undoubleQuotes (c :: l) = c :: undoubleQuotes l := by
  cases l with
  | nil => rfl
  | cons d r => simp [undoubleQuotes, hc]

theorem undouble_double (s : List Char) : undoubleQuotes (doubleQuotes s) = s := by
  induction s with
  | nil => rfl
  | cons c t ih =>
    cases hcq : (c == '"') with
    | true =>
      have hc : c = '"' := by simpa using hcq
      subst hc
      simp [doubleQuotes, undoubleQuotes, ih]
    | false =>
      rw [show doubleQuotes (c :: t) = c :: doubleQuotes t from by simp [doubleQuotes, hcq]]
      rw [undouble_cons_ne c hcq, ih]

theorem escCore_roundtrip (s : List Char) : csvParseCell (escCore s) = s := by
  cases hs : hasSpecialChar s with
  | true =>
    simp only [escCore, hs, if_pos]
    simp [csvParseCell, List.getLast?_concat, List.dropLast_concat, undouble_double]
  | false =>
    simp only [escCore, hs, Bool.false_eq_true, if_false]
    cases s with
    | nil => rfl
    | cons a t =>
      have hq : containsSub ['"'] (a :: t) = false := by
        have hs2 := hs
        simp [hasSpecialChar] at hs2
        exact hs2.1.2
      have ha : a ≠ '"' := by
        simp [containsSub, isPrefixList] at hq
        intro hcontra
        subst hcontra
        simp at hq
      simp [csvParseCell, ha]

/- ===== Claim theorems ===== -/

/-- C1: in every reachable coordinator state at most one scan is in flight,
and a `requestScan` call made while a scan is in flight fails with
`AlreadyScanning` and leaves the state unchanged — nothing is started,
restarted or queued. -/
theorem single_flight_invariant (cd : Int) (s : CoordState) (h : Reachable cd s) :
    s.inflight.length ≤ 1 ∧
    ∀ (now : Int) (tr : ScanTrigger), s.inflight ≠ [] →
      requestScan now tr s = (Except.error ScanError.alreadyScanning, s) := by
  refine ⟨?_, fun now tr hne => requestScan_busy s now tr hne⟩
  induction h with
  | init => simp [initState]
  | @step a s2 hprev ih =>
    cases a with
    | request now tr =>
      cases he : s2.inflight.isEmpty with
      | false =>
        have hne : s2.inflight ≠ [] := by simpa [List.isEmpty_iff] using he
        have hb := requestScan_busy s2 now tr hne
        simpa [stepAct, hb] using ih
      | true =>
        cases hc : canScan s2.lastScanAt s2.cooldownSeconds now with
        | true => simp [stepAct, requestScan, he, hc]
        | false => simpa [stepAct, requestScan, he, hc] using ih
    | complete now outs =>
      cases hin : s2.inflight with
      | nil => simp [stepAct, completeScan, hin]
      | cons p rest =>
        cases hsuc : (scanSuccesses outs).isEmpty with
        | true => simp [stepAct, completeScan, hin, hsuc]
        | false => simp [stepAct, completeScan, hin, hsuc]

/-- Witness for C1: with the scan granted at time 0 in flight, a second
request at time 50 fails with `AlreadyScanning` and changes nothing. -/
theorem single_flight_witness :
    requestScan 50 ScanTrigger.manual busyState =
      (Except.error ScanError.alreadyScanning, busyState) := by
  have hr : Reachable 300 busyState :=
    Reachable.step (CoordAct.request 0 ScanTrigger.manual) Reachable.init
  exact (single_flight_invariant 300 busyState hr).2 50 ScanTrigger.manual (by decide)

/-- C2: `canScan` is true iff no prior scan is recorded or
`now - lastScanAt >= cooldownSeconds`; `secondsRemaining` equals
`max 0 (cooldownSeconds - (now - lastScanAt))`; with a 300 s cooldown and a
second trigger 10 s after the first the remaining time is 290 s. -/
theorem cooldown_policy_spec (last : Option Int) (cd now : Int) :
    (canScan last cd now = true ↔ last = none ∨ ∃ t, last = some t ∧ cd ≤ now - t) ∧
    (∀ t : Int, secondsRemaining (some t) cd now = max 0 (cd - (now - t))) ∧
    secondsRemaining none cd now = 0 ∧
    canScan (some 100) 300 110 = false ∧
    secondsRemaining (some 100) 300 110 = 290 := by
  refine ⟨?_, fun t => rfl, rfl, by decide, by decide⟩
  cases last with
  | none => simp [canScan]
  | some t => simp [canScan]

/-- C3: a `requestScan` issued while the cooldown window is still active fails
with `CooldownActive` carrying the remaining seconds, and the cache, the
history and the whole coordinator state are unchanged. -/
theorem cooldown_rejection (s : CoordState) (now t : Int) (tr : ScanTrigger)
    (hidle : s.inflight = []) (hlast : s.lastScanAt = some t)
    (hwin : now - t < s.cooldownSeconds) :
    requestScan now tr s =
      (Except.error (ScanError.cooldownActive (s.cooldownSeconds - (now - t))), s) ∧
    (requestScan now tr s).2.cache = s.cache ∧
    (requestScan now tr s).2.history = s.history ∧
    (requestScan now tr s).2.events = s.events ∧
    (requestScan now tr s).2.inflight = [] := by
  have he : s.inflight.isEmpty = true := by simp [List.isEmpty_iff, hidle]
  have hcs : canScan s.lastScanAt s.cooldownSeconds now = false := by
    simp [canScan, hlast, decide_eq_false_iff_not]
    omega
  have hsr : secondsRemaining s.lastScanAt s.cooldownSeconds now
      = s.cooldownSeconds - (now - t) := by
    simp only [secondsRemaining, hlast]
    exact max_eq_right (by omega)
  have hmain : requestScan now tr s =
      (Except.error (ScanError.cooldownActive (s.cooldownSeconds - (now - t))), s) := by
    simp [requestScan, he, hcs, hsr]
  exact ⟨hmain, by rw [hmain], by rw [hmain], by rw [hmain], by rw [hmain]; exact hidle⟩

/-- Witness for C3: second manual trigger 10 s after a scan at time 0 under a
300 s cooldown is rejected with 290 s remaining. -/
theorem cooldown_rejection_witness :
    requestScan 10 ScanTrigger.manual cdState =
      (Except.error (ScanError.cooldownActive 290), cdState) := by
  have h := (cooldown_rejection cdState 10 0 ScanTrigger.manual rfl rfl (by decide)).1
  exact h

/-- C4 (amended): when every enabled adapter fails, no snapshot is published —
the cache and the history are unchanged — and the attempt emits exactly
`ScanStarted` followed by `ScanFailed`, with `ScanFailed` the only completion
event. -/
theorem all_sources_failed_spec (s : CoordState) (now1 now2 : Int) (tr : ScanTrigger)
    (outs : List (String × FetchResult))
    (hidle : s.inflight = []) (hcan : canScan s.lastScanAt s.cooldownSeconds now1 = true)
    (hall : ∀ p ∈ outs, isFailure p.2 = true) :
    (completeScan now2 outs (requestScan now1 tr s).2).cache = s.cache ∧
    (completeScan now2 outs (requestScan now1 tr s).2).history = s.history ∧
    (completeScan now2 outs (requestScan now1 tr s).2).inflight = [] ∧
    (completeScan now2 outs (requestScan now1 tr s).2).events =
      s.events ++ [ScanEvent.scanStarted, ScanEvent.scanFailed "All sources failed"] := by
  have he : s.inflight.isEmpty = true := by simp [List.isEmpty_iff, hidle]
  have h1 : (requestScan now1 tr s).2 =
      { s with inflight := [{ trigger := tr, startedAt := now1 }],
               events := s.events ++ [ScanEvent.scanStarted] } := by
    simp [requestScan, he, hcan]
  have hnil : scanSuccesses outs = [] := scanSuccesses_nil_of_all_failed outs hall
  rw [h1]
  simp [completeScan, hnil]

/-- Counterexample for C4 as stated: in an all-failed attempt the cache keeps
its pre-attempt value, but the attempt's event trace is `ScanStarted` then
`ScanFailed`, not `ScanFailed` alone. -/
theorem all_sources_failed_counterexample :
    (completeScan 5 [("network_scanner", FetchResult.failure SourceErrKind.timeout)]
        (requestScan 0 ScanTrigger.manual (initState 300)).2).events =
      [ScanEvent.scanStarted, ScanEvent.scanFailed "All sources failed"] ∧
    (completeScan 5 [("network_scanner", FetchResult.failure SourceErrKind.timeout)]
        (requestScan 0 ScanTrigger.manual (initState 300)).2).events ≠
      [ScanEvent.scanFailed "All sources failed"] ∧
    (completeScan 5 [("network_scanner", FetchResult.failure SourceErrKind.timeout)]
        (requestScan 0 ScanTrigger.manual (initState 300)).2).cache =
      (initState 300).cache := by decide

/-- Witness for C4's amended theorem: a concrete all-failed attempt leaves the
cache unchanged and emits `ScanStarted` then `ScanFailed`. -/
theorem all_sources_failed_witness :
    (completeScan 5 [("network_scanner", FetchResult.failure SourceErrKind.timeout)]
        (requestScan 0 ScanTrigger.manual (initState 300)).2).cache =
      (initState 300).cache ∧
    (completeScan 5 [("network_scanner", FetchResult.failure SourceErrKind.timeout)]
        (requestScan 0 ScanTrigger.manual (initState 300)).2).events =
      (initState 300).events ++
        [ScanEvent.scanStarted, ScanEvent.scanFailed "All sources failed"] := by
  have h := all_sources_failed_spec (initState 300) 0 5 ScanTrigger.manual
      [("network_scanner", FetchResult.failure SourceErrKind.timeout)]
      rfl (by decide) (by decide)
  exact ⟨h.1, h.2.2.2⟩

/-- C5: when a non-empty subset of adapters succeeds, the published snapshot's
fields are exactly the concatenation of the successful sources' lists in
registration order with no cross-source deduplication, and `partialFailures`
lists exactly the failed adapters' identifiers. -/
theorem partial_success_merge (s : CoordState) (now : Int)
    (outs : List (String × FetchResult)) (p : PendingScan) (rest : List PendingScan)
    (hin : s.inflight = p :: rest)
    (hsome : (scanSuccesses outs).isEmpty = false) :
    ∃ snap : Snapshot,
      (completeScan now outs s).cache = some snap ∧
      snap.networkDevices =
        (((scanSuccesses outs).map Prod.snd).map SourceResult.networkDevices).flatten ∧
      snap.wirelessClients =
        (((scanSuccesses outs).map Prod.snd).map SourceResult.wirelessClients).flatten ∧
      snap.wirelessNetworks =
        (((scanSuccesses outs).map Prod.snd).map SourceResult.wirelessNetworks).flatten ∧
      snap.accessPoints =
        (((scanSuccesses outs).map Prod.snd).map SourceResult.accessPoints).flatten ∧
      snap.containers =
        (((scanSuccesses outs).map Prod.snd).map SourceResult.containers).flatten ∧
      snap.virtualMachines =
        (((scanSuccesses outs).map Prod.snd).map SourceResult.virtualMachines).flatten ∧
      snap.partialFailures = scanFailures outs ∧
      snap.partialFailures.map Prod.fst = failedIds outs ∧
      (∀ (sid : String) (r : SourceResult),
        (sid, r) ∈ scanSuccesses outs ↔ (sid, FetchResult.success r) ∈ outs) ∧
      (completeScan now outs s).history =
        s.history ++ [mkHistoryEntry s.history.length now p.trigger snap] ∧
      (completeScan now outs s).events =
        s.events ++ [ScanEvent.scanCompleted now snap.wirelessClients.length
          snap.containers.length (canScan (some now) s.cooldownSeconds now)] ∧
      (completeScan now outs s).inflight = [] := by
  refine ⟨mergeSnapshot now ((scanSuccesses outs).map Prod.snd) (scanFailures outs),
    ?_, rfl, rfl, rfl, rfl, rfl, rfl, rfl, scanFailures_map_fst outs,
    fun sid r => mem_scanSuccesses outs sid r, ?_, ?_, ?_⟩
  all_goals simp [completeScan, hin, hsome, mergeSnapshot]

/-- Witness for C5: with one successful and one failed adapter a snapshot is
published and the coordinator returns to idle. -/
theorem partial_success_merge_witness :
    (completeScan 7 wsOuts wsState).cache ≠ none ∧
    (completeScan 7 wsOuts wsState).inflight = [] := by
  obtain ⟨snap, hc, -, -, -, -, -, -, -, -, -, -, -, hinf⟩ :=
    partial_success_merge wsState 7 wsOuts
      { trigger := ScanTrigger.manual, startedAt := 0 } [] rfl (by decide)
  exact ⟨by rw [hc]; simp, hinf⟩

/-- C6: `triggerScan` returns the parsed `ScanData` on an ok response and for
every non-ok response — 429 and 409 included — raises the body's error
message, or the fallback text when the body has none. -/
theorem trigger_scan_spec (r : ScanHttpResponse) :
    (r.ok = true → triggerScan r = Except.ok r.data) ∧
    (r.ok = false →
      triggerScan r = Except.error (r.errorMsg.getD "Failed to trigger scan")) ∧
    (∀ msg, r.ok = false → r.errorMsg = some msg → triggerScan r = Except.error msg) ∧
    (r.ok = false → r.errorMsg = none →
      triggerScan r = Except.error "Failed to trigger scan") := by
    refine ⟨fun h => by simp [triggerScan, h],
      fun h => by simp [triggerScan, h],
      fun msg h hm => by simp [triggerScan, h, hm],
      fun h hm => by simp [triggerScan, h, hm]⟩

/-- Witness for C6: concrete 200, 429 and 409 responses. -/
theorem trigger_scan_witness :
    triggerScan respOk = Except.ok respOk.data ∧
    triggerScan resp429 = Except.error "Scan cooldown active" ∧
    triggerScan resp409 = Except.error "Scan already in progress" :=
  ⟨(trigger_scan_spec respOk).1 rfl,
   (trigger_scan_spec resp429).2.2.1 "Scan cooldown active" rfl rfl,
   (trigger_scan_spec resp409).2.2.1 "Scan already in progress" rfl rfl⟩

/-- C7: the channel carries exactly the three scan-lifecycle events with the
published payload shapes, the subscriber invokes the matching callback with
that payload, and no message is ever sent back in acknowledgment. -/
theorem scan_lifecycle_channel :
    (∀ e : ScanEvent, e = ScanEvent.scanStarted ∨
      (∃ ts tc tcon cr, e = ScanEvent.scanCompleted ts tc tcon cr) ∨
      (∃ msg, e = ScanEvent.scanFailed msg)) ∧
    eventToMessage ScanEvent.scanStarted = SocketMessage.scan_started ∧
    (∀ ts tc tcon cr, eventToMessage (ScanEvent.scanCompleted ts tc tcon cr) =
      SocketMessage.scan_completed
        { timestamp := toString ts, total_clients := tc,
          total_containers := tcon, can_refresh := cr }) ∧
    (∀ msg, eventToMessage (ScanEvent.scanFailed msg) =
      SocketMessage.scan_failed { error := msg }) ∧
    dispatchSocketMessage SocketMessage.scan_started = (HandlerCall.scanStartedCb, []) ∧
    (∀ d, dispatchSocketMessage (SocketMessage.scan_completed d) =
      (HandlerCall.scanCompletedCb d, [])) ∧
    (∀ d, dispatchSocketMessage (SocketMessage.scan_failed d) =
      (HandlerCall.scanFailedCb d, [])) ∧
    (∀ m : SocketMessage, (dispatchSocketMessage m).2 = []) := by
  refine ⟨?_, rfl, fun ts tc tcon cr => rfl, fun msg => rfl, rfl,
    fun d => rfl, fun d => rfl, ?_⟩
  · intro e
    cases e with
    | scanStarted => exact Or.inl rfl
    | scanCompleted ts tc tcon cr => exact Or.inr (Or.inl ⟨ts, tc, tcon, cr, rfl⟩)
    | scanFailed msg => exact Or.inr (Or.inr ⟨msg, rfl⟩)
  · intro m
    cases m <;> rfl

/-- C8: the filtered view keeps each list's relative order and contains
exactly the elements whose searched fields contain the lowercased query; the
empty query returns the data unchanged; no element is invented or duplicated
(each output list is a sublist of its input list). -/
theorem filtered_scan_data_spec (d : ScanData) (q : String) :
    filteredScanData "" d = d ∧
    List.Sublist (filteredScanData q d).network.clients d.network.clients ∧
    List.Sublist (filteredScanData q d).network.networks d.network.networks ∧
    List.Sublist (filteredScanData q d).network.access_points d.network.access_points ∧
    List.Sublist (filteredScanData q d).containers d.containers ∧
    (q ≠ "" →
      ((∀ c, c ∈ (filteredScanData q d).network.clients ↔
          c ∈ d.network.clients ∧ clientMatches (lowerStr q) c = true) ∧
       (∀ n, n ∈ (filteredScanData q d).network.networks ↔
          n ∈ d.network.networks ∧ networkMatches (lowerStr q) n = true) ∧
       (∀ a, a ∈ (filteredScanData q d).network.access_points ↔
          a ∈ d.network.access_points ∧ accessPointMatches (lowerStr q) a = true) ∧
       (∀ c, c ∈ (filteredScanData q d).containers ↔
          c ∈ d.containers ∧ containerMatches (lowerStr q) c = true))) := by
  have h0 : filteredScanData "" d = d := by simp [filteredScanData]
  by_cases hq : q = ""
  · subst hq
    rw [h0]
    exact ⟨h0, List.Sublist.refl _, List.Sublist.refl _, List.Sublist.refl _,
      List.Sublist.refl _, fun h => absurd rfl h⟩
  · have e1 : (filteredScanData q d).network.clients =
        d.network.clients.filter (clientMatches (lowerStr q)) := by
      simp [filteredScanData, hq]
    have e2 : (filteredScanData q d).network.networks =
        d.network.networks.filter (networkMatches (lowerStr q)) := by
      simp [filteredScanData, hq]
    have e3 : (filteredScanData q d).network.access_points =
        d.network.access_points.filter (accessPointMatches (lowerStr q)) := by
      simp [filteredScanData, hq]
    have e4 : (filteredScanData q d).containers =
        d.containers.filter (containerMatches (lowerStr q)) := by
      simp [filteredScanData, hq]
    refine ⟨h0, ?_, ?_, ?_, ?_, fun _ => ⟨?_, ?_, ?_, ?_⟩⟩
    · rw [e1]; exact List.filter_sublist _
    · rw [e2]; exact List.filter_sublist _
    · rw [e3]; exact List.filter_sublist _
    · rw [e4]; exact List.filter_sublist _
    · intro c; rw [e1, List.mem_filter]
    · intro n; rw [e2, List.mem_filter]
    · intro a; rw [e3, List.mem_filter]
    · intro c; rw [e4, List.mem_filter]

/-- Witness for C8: the empty query leaves the sample data unchanged and a
non-matching query drops the sample client. -/
theorem filtered_scan_witness :
    filteredScanData "" sampleData = sampleData ∧
    sampleClient ∉ (filteredScanData "zzz" sampleData).network.clients := by
  have h := filtered_scan_data_spec sampleData "zzz"
  refine ⟨(filtered_scan_data_spec sampleData "").1, fun hm => ?_⟩
  have h2 := ((h.2.2.2.2.2 (by decide)).1 sampleClient).1 hm
  exact absurd h2.2 (by decide)

/-- C9: `escapeCsvCell` maps null and undefined to the empty string, wraps a
string form holding a comma, quote or newline in doubled-quote form, returns
every other string form unchanged, and a standard CSV parse of an output cell
recovers the original string form. -/
theorem escape_csv_cell_spec (v : CsvValue) (s : List Char) :
    escapeCsvCell CsvValue.vnull = [] ∧
    escapeCsvCell CsvValue.vundef = [] ∧
    (hasSpecialChar s = false → escapeCsvCell (CsvValue.vstr s) = s) ∧
    (hasSpecialChar s = true →
      escapeCsvCell (CsvValue.vstr s) = '"' :: (doubleQuotes s ++ ['"'])) ∧
    (v ≠ CsvValue.vnull → v ≠ CsvValue.vundef →
      csvParseCell (escapeCsvCell v) = csvValueStr v) := by
  refine ⟨rfl, rfl, fun h => by simp [escapeCsvCell, escCore, h],
    fun h => by simp [escapeCsvCell, escCore, h], ?_⟩
  intro h1 h2
  cases v with
  | vnull => exact absurd rfl h1
  | vundef => exact absurd rfl h2
  | vstr s2 => exact escCore_roundtrip s2
  | vnum n => exact escCore_roundtrip _

/-- Witness for C9: the cell a,b is quoted and parses back to itself. -/
theorem escape_csv_witness :
    csvParseCell (escapeCsvCell (CsvValue.vstr ['a', ',', 'b'])) = ['a', ',', 'b'] :=
  (escape_csv_cell_spec (CsvValue.vstr ['a', ',', 'b']) []).2.2.2.2
    (by decide) (by decide)

/-- C10: on an ok response whose body lacks the expected list field the
history wrappers return the empty list, and on every non-ok response they
raise an error. -/
theorem history_fetch_defaults (rh : HistoryHttpResponse) (rm : MetricHttpResponse) :
    (rh.ok = true → rh.scans = none → fetchHistoryScans rh = Except.ok []) ∧
    (∀ l, rh.ok = true → rh.scans = some l → fetchHistoryScans rh = Except.ok l) ∧
    (rh.ok = false →
      fetchHistoryScans rh = Except.error (rh.errorMsg.getD "Failed to fetch scan history")) ∧
    (rm.ok = true → rm.data = none → fetchMetricHistory rm = Except.ok []) ∧
    (∀ l, rm.ok = true → rm.data = some l → fetchMetricHistory rm = Except.ok l) ∧
    (rm.ok = false →
      fetchMetricHistory rm = Except.error (rm.errorMsg.getD "Failed to fetch metric history")) := by
  refine ⟨fun h hm => by simp [fetchHistoryScans, h, hm],
    fun l h hm => by simp [fetchHistoryScans, h, hm],
    fun h => by simp [fetchHistoryScans, h],
    fun h hm => by simp [fetchMetricHistory, h, hm],
    fun l h hm => by simp [fetchMetricHistory, h, hm],
    fun h => by simp [fetchMetricHistory, h]⟩

/-- Witness for C10: concrete responses with missing list fields degrade to
the empty list and a 500 response raises the fallback error. -/
theorem history_fetch_witness :
    fetchHistoryScans histRespMissing = Except.ok [] ∧
    fetchMetricHistory metricRespMissing = Except.ok [] ∧
    fetchHistoryScans histRespBad = Except.error "Failed to fetch scan history" :=
  ⟨(history_fetch_defaults histRespMissing metricRespMissing).1 rfl rfl,
   (history_fetch_defaults histRespMissing metricRespMissing).2.2.2.1 rfl rfl,
   (history_fetch_defaults histRespBad metricRespMissing).2.2.1 rfl⟩

end NetworkInventory
